import Mathlib

/-!
Shallow embedding of the inventory/sales backend services
(`SaleServices` and `ProductServices` from the repository) and proofs
about them.

The services wrap a MongoDB document store via mongoose.  We model the
store as explicit lists of documents and each service method as a pure
function from the store (plus its arguments) to the new store and a
result.  MongoDB/mongoose behaviours that the code relies on are modelled
explicitly where they matter:

* `findById` returns the first (unique) document with the given `_id`;
* `findByIdAndUpdate` updates the single matched document and returns the
  document as it was BEFORE the update (mongoose default, no `new: true`);
* a session/transaction exists only when the deployment is a replica set
  (`mongoose.connection.client.s.options.replicaSet`); `abortTransaction`
  rolls all writes of the transaction back, while without a session each
  completed write persists even if a later step throws;
* a database write may fail for external reasons; we expose this as an
  explicit fault-injection flag on the fallible insert steps.
-/

namespace Inventory

/-- Calendar projections of a BSON date, as computed by the MongoDB
aggregation operators `$isoWeek`, `$isoWeekYear`, `$dayOfMonth`, `$month`,
`$year`.  The repository never computes these itself — it delegates to the
database — so we model a date by its projections. -/
structure DateInfo where
  isoWeek : Int
  isoWeekYear : Int
  day : Int
  month : Int
  year : Int
  deriving DecidableEq, Repr

/-- A document of the `Product` collection (product.model). -/
structure Product where
  id : Nat
  user : Nat
  seller : Nat
  name : String
  price : Int
  stock : Int
  deriving DecidableEq, Repr

/-- A document of the `Sale` collection (sale.model). -/
structure SaleDoc where
  id : Nat
  user : Nat
  product : Nat
  productName : String
  buyerName : String
  quantity : Int
  productPrice : Int
  totalPrice : Int
  date : Option DateInfo
  deriving DecidableEq, Repr

/-- A document of the `Purchase` collection (purchase.model).
`sellerName` is optional because `addToStock` writes `seller?.name`,
which is `undefined` when the seller does not exist. -/
structure PurchaseDoc where
  user : Nat
  seller : Nat
  product : Nat
  sellerName : Option String
  productName : String
  quantity : Int
  unitPrice : Int
  totalPrice : Int
  deriving DecidableEq, Repr

/-- A document of the `Seller` collection (seller.model). -/
structure SellerDoc where
  id : Nat
  name : String
  deriving DecidableEq, Repr

/-- The document store: one list per collection used by the two services. -/
structure Store where
  products : List Product
  sales : List SaleDoc
  purchases : List PurchaseDoc
  sellers : List SellerDoc
  deriving DecidableEq, Repr

/-- The `CustomError` class: an HTTP status code and a message. -/
structure CustomError where
  statusCode : Nat
  message : String
  deriving DecidableEq, Repr

/-- `Product.findById`: the unique document of the products collection
with the given `_id` (MongoDB `_id`s are unique, so first match). -/
def findProduct (st : Store) (pid : Nat) : Option Product :=
  st.products.find? (fun p => p.id == pid)

/-- `Seller.findById`. -/
def findSeller (st : Store) (sid : Nat) : Option SellerDoc :=
  st.sellers.find? (fun s => s.id == sid)

/-- `Product.findByIdAndUpdate(id, { $inc: { stock: delta } })` applied to
the products collection: increments `stock` of the single document whose
`_id` matches (there is at most one). -/
def incStockList : List Product → Nat → Int → List Product
  | [], _, _ => []
  | p :: ps, pid, delta =>
    if p.id == pid then { p with stock := p.stock + delta } :: ps
    else p :: incStockList ps pid delta

/-- The payload of a sale-create request (fields read by the service). -/
structure SalePayload where
  product : Nat
  productPrice : Int
  quantity : Int
  productName : String
  buyerName : String
  date : Option DateInfo
  deriving DecidableEq, Repr

/-- `SaleServices.create(payload, userId)`.

Control flow translated from the source:
1. `payload.user = userId; payload.totalPrice = productPrice * quantity`;
2. `Product.findById(payload.product)`; missing ⇒ throw 400
   "Product not found";
3. `quantity > product.stock` ⇒ throw 400 (insufficient stock);
4. a session is started only on a replica-set deployment (`hasSession`);
5. decrement the product's stock, then insert the sale; if the insert
   fails (`insertFails` injects the failure), the error is caught: with a
   session the transaction is aborted (the decrement is rolled back),
   without one the decrement persists; either way a 400 error is thrown.

Returns the store after the call together with the result: the created
sale, or the thrown `CustomError`.  `saleId` is the `_id` the database
assigns to the inserted sale. -/
def saleCreate (st : Store) (payload : SalePayload) (userId : Nat)
    (saleId : Nat) (hasSession : Bool) (insertFails : Bool) :
    Store × Except CustomError SaleDoc :=
  match findProduct st payload.product with
  | none => (st, .error ⟨400, "Product not found"⟩)
  | some product =>
    if payload.quantity > product.stock then
      (st, .error ⟨400, "products are not available in stock!"⟩)
    else
      -- Decrease product stock
      let st1 : Store :=
        { st with products := incStockList st.products product.id (-payload.quantity) }
      -- Create sale
      if insertFails then
        (if hasSession then st else st1,
         .error ⟨400, "Sale create failed: Failed to create sale"⟩)
      else
        let sale : SaleDoc :=
          { id := saleId
            user := userId
            product := payload.product
            productName := payload.productName
            buyerName := payload.buyerName
            quantity := payload.quantity
            productPrice := payload.productPrice
            totalPrice := payload.productPrice * payload.quantity
            date := payload.date }
        ({ st1 with sales := st1.sales ++ [sale] }, .ok sale)

/-- A JavaScript value as it can appear in a product-create payload field.
`objectId` stands for any object reference (always truthy in JS). -/
inductive JSValue
  | num (n : Int)
  | str (s : String)
  | bool (b : Bool)
  | null
  | undefined
  | objectId (id : Nat)
  deriving DecidableEq, Repr

/-- JavaScript truthiness: `!v` in the source is `¬ v.truthy`.
`0`, `""`, `false`, `null` and `undefined` are falsy. -/
def JSValue.truthy : JSValue → Bool
  | .num n => n != 0
  | .str s => s != ""
  | .bool b => b
  | .null => false
  | .undefined => false
  | .objectId _ => true

/-- The payload clean-up loop at the top of `ProductServices.create`:
`Object.keys(payload).forEach(key => { if (!payload[key]) delete payload[key] })`.
A payload is a list of field-name/value pairs; every falsy field is
removed. -/
def cleanPayload (payload : List (String × JSValue)) : List (String × JSValue) :=
  payload.filter (fun kv => kv.2.truthy)

/-- The payload of a product-create request (typed fields read by the
service after the clean-up step). -/
structure ProductPayload where
  name : String
  price : Int
  stock : Int
  seller : Nat
  deriving DecidableEq, Repr

/-- `ProductServices.create(payload, userId)`.

Control flow translated from the source (after the payload clean-up and
`payload.user = userId`):
1. a session is started only on a replica-set deployment (`hasSession`);
2. inside the try block: `Seller.findById(payload.seller)`; missing ⇒
   throw 400 "Seller not found", caught and rethrown as 400
   "Product create failed: Seller not found" (nothing was written yet);
3. insert the product;
4. insert a purchase record derived from the stored product: quantity is
   the product's stock, unit price its price, total price their product;
   if this insert fails (`purchaseInsertFails`), with a session the
   product insert is rolled back, without one it persists; a 400 error is
   thrown.

`productId` is the `_id` the database assigns to the inserted product. -/
def productCreate (st : Store) (payload : ProductPayload) (userId : Nat)
    (productId : Nat) (hasSession : Bool) (purchaseInsertFails : Bool) :
    Store × Except CustomError Product :=
  -- Ensure seller exists
  match findSeller st payload.seller with
  | none => (st, .error ⟨400, "Product create failed: Seller not found"⟩)
  | some seller =>
    -- Create the product
    let product : Product :=
      { id := productId
        user := userId
        seller := payload.seller
        name := payload.name
        price := payload.price
        stock := payload.stock }
    let st1 : Store := { st with products := st.products ++ [product] }
    -- Create a purchase record linked to the product
    if purchaseInsertFails then
      (if hasSession then st else st1,
       .error ⟨400, "Product create failed: Failed to create purchase"⟩)
    else
      let purchase : PurchaseDoc :=
        { user := userId
          seller := product.seller
          product := product.id
          sellerName := some seller.name
          productName := product.name
          quantity := product.stock
          unitPrice := product.price
          totalPrice := product.stock * product.price }
      ({ st1 with purchases := st1.purchases ++ [purchase] }, .ok product)

/-- `ProductServices.addToStock(id, payload, userId)`.

Control flow translated from the source (a session is always started
here):
1. `Seller.findById(payload.seller)` — the result is NOT checked;
2. `this.model.findByIdAndUpdate(id, { $inc: { stock: payload.stock } })`
   increments the product's stock and — mongoose default, no `new: true` —
   returns the document as it was BEFORE the update; if no product matches
   it returns `null` and the following `product.seller` access throws, the
   transaction is aborted (no write persists) and a 400 error is thrown;
3. insert a purchase record built from the PRE-update document: quantity
   is `Number(product.stock)` — the stock before the increment — and
   totalPrice is that pre-update stock times the pre-update price;
4. commit; the pre-update document is returned. -/
def addToStock (st : Store) (id : Nat) (payloadStock : Int)
    (payloadSeller : Nat) (userId : Nat) :
    Store × Except CustomError Product :=
  let seller? := findSeller st payloadSeller
  match findProduct st id with
  | none => (st, .error ⟨400, "Product create failed"⟩)
  | some product =>
    let st1 : Store := { st with products := incStockList st.products id payloadStock }
    let purchase : PurchaseDoc :=
      { user := userId
        seller := product.seller
        product := product.id
        sellerName := seller?.map SellerDoc.name
        productName := product.name
        quantity := product.stock
        unitPrice := product.price
        totalPrice := product.stock * product.price }
    ({ st1 with purchases := st1.purchases ++ [purchase] }, .ok product)

/-- `ProductServices.bulkDelete(payload)`:
`this.model.deleteMany({ _id: { $in: payload } })` — removes every product
whose `_id` is in the id list.  Note the filter mentions only `_id`: the
method takes no user and applies no owning-user restriction. -/
def bulkDelete (st : Store) (ids : List Nat) : Store :=
  { st with products := st.products.filter (fun p => !(ids.contains p.id)) }

/-- `ProductServices.read(id, userId)`:
`findOne({ user: userId, _id: id })` — unlike `bulkDelete`, reads filter
by the owning user. -/
def productRead (st : Store) (id : Nat) (userId : Nat) : Option Product :=
  st.products.find? (fun p => p.user == userId && p.id == id)

/-- `needle` occurs as a contiguous run inside `hay`. -/
def hasSub (needle : List Char) : List Char → Bool
  | [] => needle.isEmpty
  | c :: cs => needle.isPrefixOf (c :: cs) || hasSub needle cs

/-- `{ $regex: search, $options: 'i' }` applied to a string field, for a
metacharacter-free search term: case-insensitive substring match.  The
empty search term matches every document, as the empty regex does. -/
def regexMatchCI (field search : String) : Bool :=
  hasSub (search.toList.map Char.toLower) (field.toList.map Char.toLower)

/-- The `$match` stage of the data pipeline of `SaleServices.readAll`:
`{ user: userId, $or: [{ productName: /search/i }, { buyerName: /search/i }] }`. -/
def saleReadAllMatch (sales : List SaleDoc) (userId : Nat) (search : String) :
    List SaleDoc :=
  sales.filter (fun s =>
    s.user == userId &&
      (regexMatchCI s.productName search || regexMatchCI s.buyerName search))

/-- The `totalCount` pipeline of `SaleServices.readAll`:
`$match {user: userId}` then `$group {_id: null, total: {$sum: 1}}` then
`$project {_id: 0}`.  A `$group` stage on an empty input emits no group,
so the result is `[]` for a user with no sales and `[n]` otherwise. -/
def saleReadAllTotalCount (sales : List SaleDoc) (userId : Nat) : List Nat :=
  let matched := sales.filter (fun s => s.user == userId)
  if matched.isEmpty then [] else [matched.length]

/-- `SaleServices.readAll(query, userId)`: the `data` pipeline is the
match stage followed by `sortAndPaginatePipeline(query)` — a pagination
helper external to the specified core, abstracted here as the stage
`pipe` — and `totalCount` is the search-independent count pipeline. -/
def saleReadAll (pipe : List SaleDoc → List SaleDoc) (sales : List SaleDoc)
    (userId : Nat) (search : String) : List SaleDoc × List Nat :=
  (pipe (saleReadAllMatch sales userId search), saleReadAllTotalCount sales userId)

/-- The `$match` stage shared by the four revenue rollups:
`{ user: userId, date: { $exists: true, $ne: null } }` — the user's sales
with a non-null date. -/
def rollupMatch (sales : List SaleDoc) (userId : Nat) : List SaleDoc :=
  sales.filter (fun s => s.user == userId && s.date.isSome)

/-- The `$group`/`$sort`/`$project` tail shared by the four rollups, over
an arbitrary grouping key: group the matched sales by `key`, emitting per
group `totalQuantity: {$sum: quantity}` and `totalRevenue: {$sum: totalPrice}`,
then `$sort` ascending by the key order `le`.  An output entry is
`(key, totalQuantity, totalRevenue)`. -/
def rollup {κ : Type} [DecidableEq κ] (key : SaleDoc → κ) (le : κ → κ → Bool)
    (sales : List SaleDoc) (userId : Nat) : List (κ × Int × Int) :=
  let matched := rollupMatch sales userId
  let keys := (matched.map key).dedup
  let groups := keys.map (fun k =>
    (k, ((matched.filter (fun s => key s == k)).map SaleDoc.quantity).sum,
        ((matched.filter (fun s => key s == k)).map SaleDoc.totalPrice).sum))
  groups.mergeSort (fun a b => le a.1 b.1)

/-- The grouping key of `readAllWeeks`:
`{ week: {$isoWeek: date}, year: {$isoWeekYear: date} }`, ordered by year
then week as its `$sort` stage dictates.  The `none` branch is dead: the
match stage keeps only sales with a date. -/
def weekKey (s : SaleDoc) : Int × Int :=
  match s.date with
  | some d => (d.isoWeekYear, d.isoWeek)
  | none => (0, 0)

/-- The grouping key of `readAllMonths`:
`{ month: {$month: date}, year: {$year: date} }`, ordered by year then
month. -/
def monthKey (s : SaleDoc) : Int × Int :=
  match s.date with
  | some d => (d.year, d.month)
  | none => (0, 0)

/-- The grouping key of `readAllYearly`: `{ year: {$year: date} }`. -/
def yearKey (s : SaleDoc) : Int :=
  match s.date with
  | some d => d.year
  | none => 0

/-- The grouping key of `readAllDaily`:
`{ day: {$dayOfMonth: date}, month: {$month: date}, year: {$year: date} }`,
ordered by year, then month, then day. -/
def dayKey (s : SaleDoc) : Int × Int × Int :=
  match s.date with
  | some d => (d.year, d.month, d.day)
  | none => (0, 0, 0)

/-- Lexicographic `≤` on pairs, as a Bool: the order of a `$sort` stage on
two keys, the first ascending then the second ascending. -/
def lexLe2 (a b : Int × Int) : Bool :=
  a.1 < b.1 || (a.1 == b.1 && a.2 ≤ b.2)

/-- Lexicographic `≤` on triples: a `$sort` stage on three ascending keys. -/
def lexLe3 (a b : Int × Int × Int) : Bool :=
  a.1 < b.1 || (a.1 == b.1 && lexLe2 a.2 b.2)

/-- `SaleServices.readAllWeeks(userId)`. -/
def readAllWeeks (sales : List SaleDoc) (userId : Nat) : List ((Int × Int) × Int × Int) :=
  rollup weekKey lexLe2 sales userId

/-- `SaleServices.readAllMonths(userId)`. -/
def readAllMonths (sales : List SaleDoc) (userId : Nat) : List ((Int × Int) × Int × Int) :=
  rollup monthKey lexLe2 sales userId

/-- `SaleServices.readAllYearly(userId)`. -/
def readAllYearly (sales : List SaleDoc) (userId : Nat) : List (Int × Int × Int) :=
  rollup yearKey (fun a b => a ≤ b) sales userId

/-- `SaleServices.readAllDaily(userId)`. -/
def readAllDaily (sales : List SaleDoc) (userId : Nat) : List ((Int × Int × Int) × Int × Int) :=
  rollup dayKey lexLe3 sales userId

/-! ### Helper lemmas about the store operations -/

theorem mem_incStockList {ps : List Product} {pid : Nat} {delta : Int} {p' : Product}
    (h : p' ∈ incStockList ps pid delta) :
    p' ∈ ps ∨ ∃ q, ps.find? (fun p => p.id == pid) = some q ∧
      p' = { q with stock := q.stock + delta } := by
  induction ps with
  | nil => simp [incStockList] at h
  | cons p ps ih =>
    rcases hid : (p.id == pid) with _ | _
    · simp only [incStockList, hid, Bool.false_eq_true, if_false, List.mem_cons] at h
      rcases h with h | h
      · exact Or.inl (h ▸ List.mem_cons_self _ _)
      · rcases ih h with h' | ⟨q, hq, hp'⟩
        · exact Or.inl (List.mem_cons_of_mem _ h')
        · refine Or.inr ⟨q, ?_, hp'⟩
          rw [List.find?_cons, hid]
          exact hq
    · simp only [incStockList, hid, if_true, List.mem_cons] at h
      rcases h with h | h
      · refine Or.inr ⟨p, ?_, h⟩
        rw [List.find?_cons, hid]
      · exact Or.inl (List.mem_cons_of_mem _ h)

theorem find?_incStockList_self {ps : List Product} {pid : Nat} {delta : Int} {q : Product}
    (h : ps.find? (fun p => p.id == pid) = some q) :
    (incStockList ps pid delta).find? (fun p => p.id == pid) =
      some { q with stock := q.stock + delta } := by
  induction ps with
  | nil => simp at h
  | cons p ps ih =>
    rw [List.find?_cons] at h
    rcases hid : (p.id == pid) with _ | _
    · rw [hid] at h
      simp only [incStockList, hid, Bool.false_eq_true, if_false]
      rw [List.find?_cons, hid]
      exact ih h
    · rw [hid] at h
      injection h with h
      subst h
      simp only [incStockList, hid, if_true]
      rw [List.find?_cons]
      have hmatch : (({ p with stock := p.stock + delta } : Product).id == pid) = true := hid
      rw [hmatch]

theorem find?_incStockList_other {ps : List Product} {pid : Nat} {delta : Int} {qid : Nat}
    (hne : qid ≠ pid) :
    (incStockList ps pid delta).find? (fun p => p.id == qid) =
      ps.find? (fun p => p.id == qid) := by
  induction ps with
  | nil => rfl
  | cons p ps ih =>
    rcases hid : (p.id == pid) with _ | _
    · simp only [incStockList, hid, Bool.false_eq_true, if_false]
      rw [List.find?_cons, List.find?_cons]
      rcases hpq : (p.id == qid) with _ | _
      · exact ih
      · rfl
    · have hpq : (p.id == qid) = false := by
        have hp : p.id = pid := by simpa using hid
        simp [hp, Ne.symm hne]
      simp only [incStockList, hid, if_true]
      rw [List.find?_cons, List.find?_cons]
      have hmatch : (({ p with stock := p.stock + delta } : Product).id == qid) = false := hpq
      rw [hmatch]

theorem saleCreate_products_cases (st : Store) (payload : SalePayload)
    (userId saleId : Nat) (hasSession insertFails : Bool) :
    (saleCreate st payload userId saleId hasSession insertFails).1.products =
        st.products ∨
    ∃ product, findProduct st payload.product = some product ∧
      ¬ payload.quantity > product.stock ∧
      (saleCreate st payload userId saleId hasSession insertFails).1.products =
        incStockList st.products product.id (-payload.quantity) := by
  rcases hfp : findProduct st payload.product with _ | product
  · left
    simp [saleCreate, hfp]
  · by_cases hqty : payload.quantity > product.stock
    · left
      simp [saleCreate, hfp, hqty]
    · cases hf : insertFails with
      | true =>
        cases hs : hasSession with
        | true => left; simp [saleCreate, hfp, hqty]
        | false => exact Or.inr ⟨product, rfl, hqty, by simp [saleCreate, hfp, hqty]⟩
      | false => exact Or.inr ⟨product, rfl, hqty, by simp [saleCreate, hfp, hqty]⟩

/-- C1: if the referenced product exists and the requested quantity
exceeds its current stock, `SaleServices.create` throws a 400 error and
leaves the store untouched (no sale inserted, no stock decremented); and
consequently, whatever path the call takes, a store whose product stocks
are all non-negative still has only non-negative stocks afterwards — a
sale can never drive a stock negative. -/
theorem C1_sale_never_negative_stock (st : Store) (payload : SalePayload)
    (userId saleId : Nat) (hasSession insertFails : Bool) :
    (∀ product, findProduct st payload.product = some product →
      payload.quantity > product.stock →
      saleCreate st payload userId saleId hasSession insertFails =
        (st, Except.error ⟨400, "products are not available in stock!"⟩)) ∧
    ((∀ p ∈ st.products, 0 ≤ p.stock) →
      ∀ p' ∈ (saleCreate st payload userId saleId hasSession insertFails).1.products,
        0 ≤ p'.stock) := by
  constructor
  · intro product hfind hqty
    simp [saleCreate, hfind, hqty]
  · intro hall p' hp'
    rcases saleCreate_products_cases st payload userId saleId hasSession insertFails with
      h | ⟨product, hfp, hqty, h⟩
    · rw [h] at hp'
      exact hall p' hp'
    · rw [h] at hp'
      rcases mem_incStockList hp' with hmem | ⟨q, hq, hp'eq⟩
      · exact hall p' hmem
      · have hqid : product.id = payload.product := by
          simpa using List.find?_some hfp
        have hqprod : q = product := by
          have hfp' : st.products.find? (fun p => p.id == product.id) = some product := by
            rw [hqid]; exact hfp
          rw [hfp'] at hq
          injection hq with hq
          exact hq.symm
        rw [hqprod] at hp'eq
        subst hp'eq
        have h1 : 0 ≤ product.stock := hall product (List.mem_of_find?_eq_some hfp)
        show 0 ≤ product.stock + -payload.quantity
        omega

/-- C3: a successful sale-create (product exists, quantity within stock,
the insert does not fail) decrements the product's stock by exactly the
sold quantity, leaves every other product and the purchases collection
untouched, and appends a sale record whose `totalPrice` is
`productPrice * quantity` and whose owning `user` is the calling user. -/
theorem C3_sale_create_success (st : Store) (payload : SalePayload)
    (userId saleId : Nat) (hasSession : Bool) (product : Product)
    (hfind : findProduct st payload.product = some product)
    (hqty : ¬ payload.quantity > product.stock) :
    ∃ sale,
      (saleCreate st payload userId saleId hasSession false).2 = Except.ok sale ∧
      sale.user = userId ∧
      sale.totalPrice = payload.productPrice * payload.quantity ∧
      sale.quantity = payload.quantity ∧
      sale.product = payload.product ∧
      (saleCreate st payload userId saleId hasSession false).1.sales =
        st.sales ++ [sale] ∧
      findProduct (saleCreate st payload userId saleId hasSession false).1
          payload.product =
        some { product with stock := product.stock - payload.quantity } ∧
      (∀ qid, qid ≠ payload.product →
        findProduct (saleCreate st payload userId saleId hasSession false).1 qid =
          findProduct st qid) ∧
      (saleCreate st payload userId saleId hasSession false).1.purchases =
        st.purchases := by
  have hqid : product.id = payload.product := by
    simpa using List.find?_some hfind
  have hprods : (saleCreate st payload userId saleId hasSession false).1.products =
      incStockList st.products product.id (-payload.quantity) := by
    simp [saleCreate, hfind, hqty]
  refine ⟨{ id := saleId, user := userId, product := payload.product,
            productName := payload.productName, buyerName := payload.buyerName,
            quantity := payload.quantity, productPrice := payload.productPrice,
            totalPrice := payload.productPrice * payload.quantity,
            date := payload.date },
          ?_, rfl, rfl, rfl, rfl, ?_, ?_, ?_, ?_⟩
  · simp [saleCreate, hfind, hqty]
  · simp [saleCreate, hfind, hqty]
  · show (saleCreate st payload userId saleId hasSession false).1.products.find?
        (fun p => p.id == payload.product) = _
    rw [hprods, ← hqid]
    have hfind' : st.products.find? (fun p => p.id == product.id) = some product := by
      rw [hqid]; exact hfind
    rw [@find?_incStockList_self st.products product.id (-payload.quantity)
          product hfind']
    have harith : product.stock + -payload.quantity = product.stock - payload.quantity := by
      omega
    rw [harith]
  · intro qid hne
    show (saleCreate st payload userId saleId hasSession false).1.products.find?
        (fun p => p.id == qid) = _
    rw [hprods]
    exact find?_incStockList_other (hqid ▸ hne)
  · simp [saleCreate, hfind, hqty]

/-- C7: `SaleServices.create` throws a 400 "Product not found" error (and
writes nothing) when the referenced product does not exist; and every
successfully created sale has its `user` field set to the calling user's
id and references a product that existed in the store. -/
theorem C7_sale_references_product_and_user (st : Store) (payload : SalePayload)
    (userId saleId : Nat) (hasSession insertFails : Bool) :
    (findProduct st payload.product = none →
      saleCreate st payload userId saleId hasSession insertFails =
        (st, Except.error ⟨400, "Product not found"⟩)) ∧
    (∀ sale, (saleCreate st payload userId saleId hasSession insertFails).2 =
        Except.ok sale →
      sale.user = userId ∧ sale.product = payload.product ∧
        ∃ product, findProduct st payload.product = some product) := by
  constructor
  · intro hnone
    simp [saleCreate, hnone]
  · intro sale hok
    rcases hfp : findProduct st payload.product with _ | product
    · simp [saleCreate, hfp] at hok
    · by_cases hqty : payload.quantity > product.stock
      · simp [saleCreate, hfp, hqty] at hok
      · cases hf : insertFails with
        | true => simp [saleCreate, hfp, hqty, hf] at hok
        | false =>
          rw [hf] at hok
          have heq : ({ id := saleId, user := userId, product := payload.product,
                        productName := payload.productName,
                        buyerName := payload.buyerName,
                        quantity := payload.quantity,
                        productPrice := payload.productPrice,
                        totalPrice := payload.productPrice * payload.quantity,
                        date := payload.date } : SaleDoc) = sale := by
            have h2 : (saleCreate st payload userId saleId hasSession false).2 =
                Except.ok ({ id := saleId, user := userId,
                             product := payload.product,
                             productName := payload.productName,
                             buyerName := payload.buyerName,
                             quantity := payload.quantity,
                             productPrice := payload.productPrice,
                             totalPrice := payload.productPrice * payload.quantity,
                             date := payload.date } : SaleDoc) := by
              simp [saleCreate, hfp, hqty]
            rw [h2] at hok
            injection hok
          subst heq
          exact ⟨rfl, rfl, product, rfl⟩

/-- A concrete store for exercising the stock guard: one product with
stock 2. -/
def stC1 : Store :=
  { products := [⟨1, 7, 5, "Pen", 10, 2⟩], sales := [], purchases := [], sellers := [] }

/-- A sale payload requesting more (5) than the stock (2) of product 1. -/
def spC1 : SalePayload :=
  { product := 1, productPrice := 10, quantity := 5, productName := "Pen",
    buyerName := "Ann", date := none }

theorem C1_sale_never_negative_stock_witness :
    saleCreate stC1 spC1 7 99 false false =
      (stC1, Except.error ⟨400, "products are not available in stock!"⟩) ∧
    (∀ p' ∈ (saleCreate stC1 spC1 7 99 false false).1.products, 0 ≤ p'.stock) :=
  ⟨(C1_sale_never_negative_stock stC1 spC1 7 99 false false).1
      ⟨1, 7, 5, "Pen", 10, 2⟩ (by decide) (by decide),
   (C1_sale_never_negative_stock stC1 spC1 7 99 false false).2 (by decide)⟩

/-- A concrete store with one product with stock 4. -/
def stC3 : Store :=
  { products := [⟨1, 7, 5, "Pen", 10, 4⟩], sales := [], purchases := [], sellers := [] }

/-- A sale payload for 3 of product 1 at unit price 10. -/
def spC3 : SalePayload :=
  { product := 1, productPrice := 10, quantity := 3, productName := "Pen",
    buyerName := "Ann", date := none }

theorem C3_sale_create_success_witness :
    ∃ sale,
      (saleCreate stC3 spC3 7 99 false false).2 = Except.ok sale ∧
      sale.user = 7 ∧
      sale.totalPrice = spC3.productPrice * spC3.quantity ∧
      sale.quantity = spC3.quantity ∧
      sale.product = spC3.product ∧
      (saleCreate stC3 spC3 7 99 false false).1.sales = stC3.sales ++ [sale] ∧
      findProduct (saleCreate stC3 spC3 7 99 false false).1 spC3.product =
        some { (⟨1, 7, 5, "Pen", 10, 4⟩ : Product) with
                 stock := (⟨1, 7, 5, "Pen", 10, 4⟩ : Product).stock - spC3.quantity } ∧
      (∀ qid, qid ≠ spC3.product →
        findProduct (saleCreate stC3 spC3 7 99 false false).1 qid =
          findProduct stC3 qid) ∧
      (saleCreate stC3 spC3 7 99 false false).1.purchases = stC3.purchases :=
  C3_sale_create_success stC3 spC3 7 99 false ⟨1, 7, 5, "Pen", 10, 4⟩
    (by decide) (by decide)

/-- An empty store: no product to sell. -/
def stC7 : Store := { products := [], sales := [], purchases := [], sellers := [] }

/-- A store holding product 1 with ample stock. -/
def stC7b : Store :=
  { products := [⟨1, 7, 5, "Pen", 10, 4⟩], sales := [], purchases := [], sellers := [] }

/-- A sale payload for product 1. -/
def spC7 : SalePayload :=
  { product := 1, productPrice := 10, quantity := 3, productName := "Pen",
    buyerName := "Ann", date := none }

theorem C7_sale_references_product_and_user_witness :
    (saleCreate stC7 spC7 7 99 false false =
      (stC7, Except.error ⟨400, "Product not found"⟩)) ∧
    ((⟨99, 7, 1, "Pen", "Ann", 3, 10, 30, none⟩ : SaleDoc).user = 7 ∧
     (⟨99, 7, 1, "Pen", "Ann", 3, 10, 30, none⟩ : SaleDoc).product = spC7.product ∧
     ∃ product, findProduct stC7b spC7.product = some product) :=
  ⟨(C7_sale_references_product_and_user stC7 spC7 7 99 false false).1 (by decide),
   (C7_sale_references_product_and_user stC7b spC7 7 99 false false).2
      ⟨99, 7, 1, "Pen", "Ann", 3, 10, 30, none⟩ rfl⟩

/-! ### Claim theorems: transactional atomicity -/

/-- A store with one product (stock 4) for the atomicity counterexample. -/
def stC2 : Store :=
  { products := [⟨1, 7, 5, "Pen", 10, 4⟩], sales := [], purchases := [], sellers := [] }

/-- A sale payload for 3 of product 1. -/
def spC2 : SalePayload :=
  { product := 1, productPrice := 10, quantity := 3, productName := "Pen",
    buyerName := "Ann", date := none }

/-- C2 counterexample: on a deployment without a replica set no session is
started, so when the sale insert fails after the stock decrement the call
throws but the decrement stays visible: product 1's stock drops from 4 to
1 and no sale record exists — a partial effect after a failed call,
refuting the claim that the store is always left unchanged. -/
theorem C2_counterexample_partial_effect_without_session :
    (saleCreate stC2 spC2 7 99 false true).2 =
      Except.error ⟨400, "Sale create failed: Failed to create sale"⟩ ∧
    (saleCreate stC2 spC2 7 99 false true).1 ≠ stC2 ∧
    findProduct (saleCreate stC2 spC2 7 99 false true).1 1 =
      some ⟨1, 7, 5, "Pen", 10, 1⟩ ∧
    (saleCreate stC2 spC2 7 99 false true).1.sales = [] := by
  refine ⟨rfl, ?_, by decide, rfl⟩
  decide

/-- C2 amended: the multi-step creates are atomic only when a session
exists, i.e. on a replica-set deployment.  With a session, any failed
sale-create or product-create leaves the store exactly as it was; without
one, a failure after the first write can leave a partial effect (see the
counterexample). -/
theorem C2_transactional_create_atomic_with_session (st : Store)
    (sp : SalePayload) (pp : ProductPayload)
    (userId saleId productId : Nat) (f g : Bool) :
    (∀ e, (saleCreate st sp userId saleId true f).2 = Except.error e →
      (saleCreate st sp userId saleId true f).1 = st) ∧
    (∀ e, (productCreate st pp userId productId true g).2 = Except.error e →
      (productCreate st pp userId productId true g).1 = st) := by
  constructor
  · intro e he
    rcases hfp : findProduct st sp.product with _ | product
    · simp [saleCreate, hfp]
    · by_cases hqty : sp.quantity > product.stock
      · simp [saleCreate, hfp, hqty]
      · cases hf : f with
        | true => simp [saleCreate, hfp, hqty]
        | false =>
          rw [hf] at he
          simp [saleCreate, hfp, hqty] at he
  · intro e he
    rcases hfs : findSeller st pp.seller with _ | seller
    · simp [productCreate, hfs]
    · cases hg : g with
      | true => simp [productCreate, hfs]
      | false =>
        rw [hg] at he
        simp [productCreate, hfs] at he

theorem C2_transactional_create_atomic_with_session_witness :
    (saleCreate stC2 spC2 7 99 true true).1 = stC2 ∧
    (productCreate stC2 ⟨"Pen", 10, 4, 5⟩ 7 99 true true).1 = stC2 :=
  ⟨(C2_transactional_create_atomic_with_session stC2 spC2 ⟨"Pen", 10, 4, 5⟩
      7 99 99 true true).1
      ⟨400, "Sale create failed: Failed to create sale"⟩ rfl,
   (C2_transactional_create_atomic_with_session stC2 spC2 ⟨"Pen", 10, 4, 5⟩
      7 99 99 true true).2
      ⟨400, "Product create failed: Seller not found"⟩ rfl⟩

/-! ### Claim theorems: product creation and stock intake -/

/-- C4: a successful product-create inserts the product (owned by the
calling user, with the payload's fields and the fresh id) and also inserts
a Purchase audit record linked to the new product and its seller, with
quantity equal to the product's initial stock, unitPrice equal to its
price and totalPrice equal to stock times price; and when the referenced
seller does not exist the call fails with a 400 error and the store — in
particular the products collection — is unchanged. -/
theorem C4_product_create_purchase_audit (st : Store) (payload : ProductPayload)
    (userId productId : Nat) (hasSession b : Bool) :
    (findSeller st payload.seller = none →
      productCreate st payload userId productId hasSession b =
        (st, Except.error ⟨400, "Product create failed: Seller not found"⟩)) ∧
    (∀ seller, findSeller st payload.seller = some seller →
      ∃ product purchase,
        (productCreate st payload userId productId hasSession false).2 =
          Except.ok product ∧
        (productCreate st payload userId productId hasSession false).1.products =
          st.products ++ [product] ∧
        (productCreate st payload userId productId hasSession false).1.purchases =
          st.purchases ++ [purchase] ∧
        product.user = userId ∧ product.name = payload.name ∧
        product.price = payload.price ∧ product.stock = payload.stock ∧
        product.seller = payload.seller ∧ product.id = productId ∧
        purchase.user = userId ∧ purchase.seller = product.seller ∧
        purchase.product = product.id ∧ purchase.sellerName = some seller.name ∧
        purchase.productName = product.name ∧ purchase.quantity = product.stock ∧
        purchase.unitPrice = product.price ∧
        purchase.totalPrice = product.stock * product.price) := by
  constructor
  · intro hnone
    simp [productCreate, hnone]
  · intro seller hsel
    refine ⟨{ id := productId, user := userId, seller := payload.seller,
              name := payload.name, price := payload.price, stock := payload.stock },
            { user := userId, seller := payload.seller, product := productId,
              sellerName := some seller.name, productName := payload.name,
              quantity := payload.stock, unitPrice := payload.price,
              totalPrice := payload.stock * payload.price },
            ?_, ?_, ?_, rfl, rfl, rfl, rfl, rfl, rfl, rfl, rfl, rfl, rfl, rfl,
            rfl, rfl, rfl⟩ <;>
      simp [productCreate, hsel]

/-- A store holding seller 5 only. -/
def stC4 : Store :=
  { products := [], sales := [], purchases := [], sellers := [⟨5, "Acme"⟩] }

/-- A store with no sellers at all. -/
def stC4none : Store :=
  { products := [], sales := [], purchases := [], sellers := [] }

/-- A product-create payload referencing seller 5. -/
def ppC4 : ProductPayload := ⟨"Pen", 10, 4, 5⟩

theorem C4_product_create_purchase_audit_witness :
    productCreate stC4none ppC4 7 99 false false =
      (stC4none, Except.error ⟨400, "Product create failed: Seller not found"⟩) ∧
    ∃ product purchase,
      (productCreate stC4 ppC4 7 99 false false).2 = Except.ok product ∧
      (productCreate stC4 ppC4 7 99 false false).1.products =
        stC4.products ++ [product] ∧
      (productCreate stC4 ppC4 7 99 false false).1.purchases =
        stC4.purchases ++ [purchase] ∧
      product.user = 7 ∧ product.name = ppC4.name ∧
      product.price = ppC4.price ∧ product.stock = ppC4.stock ∧
      product.seller = ppC4.seller ∧ product.id = 99 ∧
      purchase.user = 7 ∧ purchase.seller = product.seller ∧
      purchase.product = product.id ∧
      purchase.sellerName = some (SellerDoc.mk 5 "Acme").name ∧
      purchase.productName = product.name ∧ purchase.quantity = product.stock ∧
      purchase.unitPrice = product.price ∧
      purchase.totalPrice = product.stock * product.price :=
  ⟨(C4_product_create_purchase_audit stC4none ppC4 7 99 false false).1 (by decide),
   (C4_product_create_purchase_audit stC4 ppC4 7 99 false false).2
      ⟨5, "Acme"⟩ (by decide)⟩

/-- A store for the addToStock counterexample: product 1 has stock 5 at
unit price 2, and seller 5 exists. -/
def stC5 : Store :=
  { products := [⟨1, 7, 5, "Gadget", 2, 5⟩], sales := [], purchases := [],
    sellers := [⟨5, "Acme"⟩] }

/-- C5 counterexample: `addToStock` of 3 units on product 1 (stock 5,
price 2) increments the stock to 8, but the inserted purchase audits
quantity 5 — the total stock BEFORE the update, because
`findByIdAndUpdate` returns the pre-update document — and totalPrice
10 = 5 * 2, not the added quantity 3 and 6 = 3 * 2 that the claim
requires. -/
theorem C5_counterexample_purchase_not_added_quantity :
    findProduct (addToStock stC5 1 3 5 7).1 1 = some ⟨1, 7, 5, "Gadget", 2, 8⟩ ∧
    (addToStock stC5 1 3 5 7).1.purchases =
      [⟨7, 5, 1, some "Acme", "Gadget", 5, 2, 10⟩] ∧
    ((5 : Int) = 3) = False ∧ ((10 : Int) = 3 * 2) = False := by
  refine ⟨by decide, by decide, by simp, by simp⟩

/-- C5 amended: for every `addToStock` call on an existing product, the
product's stock is incremented by the requested amount, but the inserted
Purchase record audits the product's PRE-update state: its quantity equals
the product's stock before the increment (not the quantity added in this
call) and its totalPrice equals that pre-update stock times the pre-update
unit price.  The pre-update document is also what the call returns. -/
theorem C5_addToStock_audits_preupdate_stock (st : Store) (id : Nat)
    (addQty : Int) (sellerId userId : Nat) (product : Product)
    (hfind : findProduct st id = some product) :
    findProduct (addToStock st id addQty sellerId userId).1 id =
      some { product with stock := product.stock + addQty } ∧
    (addToStock st id addQty sellerId userId).1.purchases =
      st.purchases ++ [⟨userId, product.seller, product.id,
        (findSeller st sellerId).map SellerDoc.name, product.name,
        product.stock, product.price, product.stock * product.price⟩] ∧
    (addToStock st id addQty sellerId userId).2 = Except.ok product ∧
    (∀ qid, qid ≠ id →
      findProduct (addToStock st id addQty sellerId userId).1 qid =
        findProduct st qid) := by
  have hprods : (addToStock st id addQty sellerId userId).1.products =
      incStockList st.products id addQty := by
    simp [addToStock, hfind]
  refine ⟨?_, ?_, ?_, ?_⟩
  · show (addToStock st id addQty sellerId userId).1.products.find?
        (fun p => p.id == id) = _
    rw [hprods]
    exact find?_incStockList_self hfind
  · simp [addToStock, hfind]
  · simp [addToStock, hfind]
  · intro qid hne
    show (addToStock st id addQty sellerId userId).1.products.find?
        (fun p => p.id == qid) = _
    rw [hprods]
    exact find?_incStockList_other hne

theorem C5_addToStock_audits_preupdate_stock_witness :
    findProduct (addToStock stC5 1 3 5 7).1 1 =
      some { (⟨1, 7, 5, "Gadget", 2, 5⟩ : Product) with
               stock := (⟨1, 7, 5, "Gadget", 2, 5⟩ : Product).stock + 3 } ∧
    (addToStock stC5 1 3 5 7).1.purchases =
      stC5.purchases ++ [⟨7, (⟨1, 7, 5, "Gadget", 2, 5⟩ : Product).seller,
        (⟨1, 7, 5, "Gadget", 2, 5⟩ : Product).id,
        (findSeller stC5 5).map SellerDoc.name,
        (⟨1, 7, 5, "Gadget", 2, 5⟩ : Product).name,
        (⟨1, 7, 5, "Gadget", 2, 5⟩ : Product).stock,
        (⟨1, 7, 5, "Gadget", 2, 5⟩ : Product).price,
        (⟨1, 7, 5, "Gadget", 2, 5⟩ : Product).stock *
          (⟨1, 7, 5, "Gadget", 2, 5⟩ : Product).price⟩] ∧
    (addToStock stC5 1 3 5 7).2 = Except.ok ⟨1, 7, 5, "Gadget", 2, 5⟩ ∧
    (∀ qid, qid ≠ 1 →
      findProduct (addToStock stC5 1 3 5 7).1 qid = findProduct stC5 qid) :=
  C5_addToStock_audits_preupdate_stock stC5 1 3 5 7
    ⟨1, 7, 5, "Gadget", 2, 5⟩ (by decide)

/-! ### Claim theorems: bulk delete, payload clean-up, readAll -/

/-- C8: `ProductServices.bulkDelete` removes exactly the products whose id
is in the given list — the filter mentions only the id, never the owning
user (the method takes no user at all), so a product is deleted whichever
user owns it.  The other collections are untouched.  The read path, by
contrast, filters by the owning user. -/
theorem C8_bulkDelete_ignores_owner (st : Store) (ids : List Nat) :
    (∀ p, p ∈ (bulkDelete st ids).products ↔ p ∈ st.products ∧ p.id ∉ ids) ∧
    (∀ p, p ∈ st.products → p.id ∈ ids → p ∉ (bulkDelete st ids).products) ∧
    (bulkDelete st ids).sales = st.sales ∧
    (bulkDelete st ids).purchases = st.purchases ∧
    (bulkDelete st ids).sellers = st.sellers := by
  refine ⟨?_, ?_, rfl, rfl, rfl⟩
  · intro p
    simp [bulkDelete, List.mem_filter]
  · intro p hp hid hmem
    simp [bulkDelete, List.mem_filter] at hmem
    exact hmem.2 hid

/-- A store in which user 7 owns product 1 and user 8 owns product 2. -/
def stC8 : Store :=
  { products := [⟨1, 7, 5, "Pen", 10, 4⟩, ⟨2, 8, 5, "Ink", 3, 9⟩],
    sales := [], purchases := [], sellers := [] }

theorem C8_bulkDelete_ignores_owner_witness :
    ((⟨2, 8, 5, "Ink", 3, 9⟩ : Product) ∈ (bulkDelete stC8 [2]).products ↔
      (⟨2, 8, 5, "Ink", 3, 9⟩ : Product) ∈ stC8.products ∧
        (⟨2, 8, 5, "Ink", 3, 9⟩ : Product).id ∉ [2]) ∧
    (⟨2, 8, 5, "Ink", 3, 9⟩ : Product) ∉ (bulkDelete stC8 [2]).products :=
  ⟨(C8_bulkDelete_ignores_owner stC8 [2]).1 ⟨2, 8, 5, "Ink", 3, 9⟩,
   (C8_bulkDelete_ignores_owner stC8 [2]).2.1 ⟨2, 8, 5, "Ink", 3, 9⟩
      (by decide) (by decide)⟩

/-- C9: the product-create clean-up removes from the payload exactly the
fields whose value is falsy — `0`, the empty string, `false`, `null`,
`undefined` — and keeps every truthy field; in particular a field carrying
the number 0 (e.g. price or stock) never survives into the persisted
payload. -/
theorem C9_create_drops_falsy_fields (payload : List (String × JSValue)) :
    (∀ kv, kv ∈ cleanPayload payload ↔ kv ∈ payload ∧ kv.2.truthy = true) ∧
    (∀ k, (k, JSValue.num 0) ∉ cleanPayload payload) ∧
    (∀ k, (k, JSValue.str "") ∉ cleanPayload payload) ∧
    (∀ k, (k, JSValue.null) ∉ cleanPayload payload) ∧
    (∀ k, (k, JSValue.undefined) ∉ cleanPayload payload) ∧
    (∀ k, (k, JSValue.bool false) ∉ cleanPayload payload) := by
  refine ⟨?_, ?_, ?_, ?_, ?_, ?_⟩ <;> intros <;>
    simp [cleanPayload, List.mem_filter, JSValue.truthy]

/-- A payload with a truthy name and a price of 0. -/
def plC9 : List (String × JSValue) := [("name", JSValue.str "Pen"), ("price", JSValue.num 0)]

theorem C9_create_drops_falsy_fields_witness :
    (("name", JSValue.str "Pen") ∈ cleanPayload plC9 ↔
      ("name", JSValue.str "Pen") ∈ plC9 ∧ (JSValue.str "Pen").truthy = true) ∧
    ("price", JSValue.num 0) ∉ cleanPayload plC9 :=
  ⟨(C9_create_drops_falsy_fields plC9).1 ("name", JSValue.str "Pen"),
   (C9_create_drops_falsy_fields plC9).2.1 "price"⟩

/-- One sale of user 7: `totalCount` counts it even when the search
matches nothing. -/
def salesC10 : List SaleDoc := [⟨1, 7, 1, "apple", "bob", 1, 1, 1, none⟩]

/-- C10: the `totalCount` pipeline of `SaleServices.readAll` matches only
on the user — it is independent of the search term and reports the number
of all the user's sales (as a one-element aggregate, empty when the user
has no sales) — while the data pipeline additionally filters by a
case-insensitive match of the search term against `productName` or
`buyerName`; for the one-sale store `salesC10` and the search "zzz" the
count is 1 while no sale matches. -/
theorem C10_totalCount_ignores_search (pipe : List SaleDoc → List SaleDoc)
    (sales : List SaleDoc) (userId : Nat) (search other : String) :
    (saleReadAll pipe sales userId search).2 =
      (saleReadAll pipe sales userId other).2 ∧
    (∀ n, (saleReadAll pipe sales userId search).2 = [n] →
      n = (sales.filter (fun s => s.user == userId)).length) ∧
    ((sales.filter (fun s => s.user == userId)) ≠ [] →
      (saleReadAll pipe sales userId search).2 =
        [(sales.filter (fun s => s.user == userId)).length]) ∧
    (saleReadAll pipe sales userId search).1 =
      pipe (saleReadAllMatch sales userId search) ∧
    (∀ s, s ∈ saleReadAllMatch sales userId search ↔
      s ∈ sales ∧ s.user = userId ∧
        (regexMatchCI s.productName search = true ∨
          regexMatchCI s.buyerName search = true)) ∧
    (saleReadAllTotalCount salesC10 7 = [1] ∧
      saleReadAllMatch salesC10 7 "zzz" = []) := by
  refine ⟨rfl, ?_, ?_, rfl, ?_, by decide, by decide⟩
  · intro n h
    simp only [saleReadAll, saleReadAllTotalCount] at h
    by_cases he : (sales.filter (fun s => s.user == userId)).isEmpty
    · rw [if_pos he] at h
      simp at h
    · rw [if_neg he] at h
      injection h with h
      exact h.symm
  · intro hne
    have he : (sales.filter (fun s => s.user == userId)).isEmpty = false := by
      simpa [List.isEmpty_iff] using hne
    simp [saleReadAll, saleReadAllTotalCount, he]
  · intro s
    simp [saleReadAllMatch, List.mem_filter, and_assoc]

theorem C10_totalCount_ignores_search_witness :
    (saleReadAll id salesC10 7 "zzz").2 = (saleReadAll id salesC10 7 "apple").2 ∧
    (1 : Nat) = (salesC10.filter (fun s => s.user == 7)).length ∧
    (saleReadAll id salesC10 7 "zzz").2 =
      [(salesC10.filter (fun s => s.user == 7)).length] :=
  ⟨(C10_totalCount_ignores_search id salesC10 7 "zzz" "apple").1,
   (C10_totalCount_ignores_search id salesC10 7 "zzz" "apple").2.1 1 (by decide),
   (C10_totalCount_ignores_search id salesC10 7 "zzz" "apple").2.2.1 (by decide)⟩

/-! ### Claim theorems: revenue rollups -/

/-- What the spec requires of one rollup pipeline with grouping key `key`
and key order `le`: every output entry carries the sums of `quantity` and
`totalPrice` over exactly the user's non-null-dated sales with that key;
the output has an entry for a key exactly when such a sale exists; and
the output is sorted ascending by `le` on the keys. -/
def RollupOk {κ : Type} [DecidableEq κ] (key : SaleDoc → κ) (le : κ → κ → Bool)
    (sales : List SaleDoc) (userId : Nat) (out : List (κ × Int × Int)) : Prop :=
  (∀ e ∈ out,
    e.2.1 = ((sales.filter
        (fun s => s.user == userId && s.date.isSome && key s == e.1)).map
        SaleDoc.quantity).sum ∧
    e.2.2 = ((sales.filter
        (fun s => s.user == userId && s.date.isSome && key s == e.1)).map
        SaleDoc.totalPrice).sum) ∧
  (∀ k : κ, (∃ q t, (k, q, t) ∈ out) ↔
    ∃ s, s ∈ sales ∧ s.user = userId ∧ s.date.isSome = true ∧ key s = k) ∧
  out.Pairwise (fun a b => le a.1 b.1 = true)

theorem rollupMatch_filter_key {κ : Type} [DecidableEq κ] (key : SaleDoc → κ)
    (sales : List SaleDoc) (userId : Nat) (k : κ) :
    (rollupMatch sales userId).filter (fun s => key s == k) =
      sales.filter (fun s => s.user == userId && s.date.isSome && key s == k) := by
  rw [rollupMatch, List.filter_filter]
  apply List.filter_congr
  intro a _
  cases a.user == userId <;> cases a.date.isSome <;> cases key a == k <;> rfl

theorem rollup_sums {κ : Type} [DecidableEq κ] (key : SaleDoc → κ)
    (le : κ → κ → Bool) (sales : List SaleDoc) (userId : Nat)
    (e : κ × Int × Int) (he : e ∈ rollup key le sales userId) :
    e.2.1 = ((sales.filter
        (fun s => s.user == userId && s.date.isSome && key s == e.1)).map
        SaleDoc.quantity).sum ∧
    e.2.2 = ((sales.filter
        (fun s => s.user == userId && s.date.isSome && key s == e.1)).map
        SaleDoc.totalPrice).sum := by
  rw [rollup] at he
  have he' := List.mem_mergeSort.mp he
  rcases List.mem_map.mp he' with ⟨k, _, hke⟩
  subst hke
  constructor
  · show (((rollupMatch sales userId).filter (fun s => key s == k)).map
        SaleDoc.quantity).sum = _
    rw [rollupMatch_filter_key]
  · show (((rollupMatch sales userId).filter (fun s => key s == k)).map
        SaleDoc.totalPrice).sum = _
    rw [rollupMatch_filter_key]

theorem rollup_keys {κ : Type} [DecidableEq κ] (key : SaleDoc → κ)
    (le : κ → κ → Bool) (sales : List SaleDoc) (userId : Nat) (k : κ) :
    (∃ q t, (k, q, t) ∈ rollup key le sales userId) ↔
    ∃ s, s ∈ sales ∧ s.user = userId ∧ s.date.isSome = true ∧ key s = k := by
  constructor
  · rintro ⟨q, t, hmem⟩
    rw [rollup] at hmem
    have h' := List.mem_mergeSort.mp hmem
    rcases List.mem_map.mp h' with ⟨k', hk', hke⟩
    have hkk : k' = k := congrArg Prod.fst hke
    subst hkk
    have hk2 := List.mem_dedup.mp hk'
    rcases List.mem_map.mp hk2 with ⟨s, hs, hsk⟩
    rcases List.mem_filter.mp hs with ⟨hss, hcond⟩
    simp only [Bool.and_eq_true, beq_iff_eq] at hcond
    exact ⟨s, hss, hcond.1, hcond.2, hsk⟩
  · rintro ⟨s, hss, hu, hd, hsk⟩
    have hmatched : s ∈ rollupMatch sales userId := by
      rw [rollupMatch, List.mem_filter]
      exact ⟨hss, by simp [hu, hd]⟩
    have hkeys : k ∈ ((rollupMatch sales userId).map key).dedup :=
      List.mem_dedup.mpr (List.mem_map.mpr ⟨s, hmatched, hsk⟩)
    refine ⟨(((rollupMatch sales userId).filter (fun s => key s == k)).map
              SaleDoc.quantity).sum,
            (((rollupMatch sales userId).filter (fun s => key s == k)).map
              SaleDoc.totalPrice).sum, ?_⟩
    rw [rollup]
    exact List.mem_mergeSort.mpr (List.mem_map.mpr ⟨k, hkeys, rfl⟩)

theorem rollup_sorted {κ : Type} [DecidableEq κ] (key : SaleDoc → κ)
    (le : κ → κ → Bool)
    (htrans : ∀ a b c, le a b = true → le b c = true → le a c = true)
    (htotal : ∀ a b, (le a b || le b a) = true)
    (sales : List SaleDoc) (userId : Nat) :
    (rollup key le sales userId).Pairwise (fun a b => le a.1 b.1 = true) := by
  rw [rollup]
  exact List.sorted_mergeSort
    (fun a b c hab hbc => htrans a.1 b.1 c.1 hab hbc)
    (fun a b => htotal a.1 b.1) _

theorem lexLe2_trans (a b c : Int × Int) :
    lexLe2 a b = true → lexLe2 b c = true → lexLe2 a c = true := by
  simp only [lexLe2, Bool.or_eq_true, Bool.and_eq_true, decide_eq_true_eq,
    beq_iff_eq]
  omega

theorem lexLe2_total (a b : Int × Int) : (lexLe2 a b || lexLe2 b a) = true := by
  simp only [lexLe2, Bool.or_eq_true, Bool.and_eq_true, decide_eq_true_eq,
    beq_iff_eq]
  omega

theorem lexLe3_trans (a b c : Int × Int × Int) :
    lexLe3 a b = true → lexLe3 b c = true → lexLe3 a c = true := by
  simp only [lexLe3, lexLe2, Bool.or_eq_true, Bool.and_eq_true,
    decide_eq_true_eq, beq_iff_eq]
  omega

theorem lexLe3_total (a b : Int × Int × Int) :
    (lexLe3 a b || lexLe3 b a) = true := by
  simp only [lexLe3, lexLe2, Bool.or_eq_true, Bool.and_eq_true,
    decide_eq_true_eq, beq_iff_eq]
  omega

theorem rollup_ok {κ : Type} [DecidableEq κ] (key : SaleDoc → κ)
    (le : κ → κ → Bool)
    (htrans : ∀ a b c, le a b = true → le b c = true → le a c = true)
    (htotal : ∀ a b, (le a b || le b a) = true)
    (sales : List SaleDoc) (userId : Nat) :
    RollupOk key le sales userId (rollup key le sales userId) :=
  ⟨fun e he => rollup_sums key le sales userId e he,
   fun k => rollup_keys key le sales userId k,
   rollup_sorted key le htrans htotal sales userId⟩

/-- C6: each of the four revenue rollups groups exactly the calling
user's sales that have a non-null date by its calendar key — ISO week and
ISO week-year for `readAllWeeks`, month and year for `readAllMonths`,
year for `readAllYearly`, day/month/year for `readAllDaily` — emits per
group the sum of the quantities and the sum of the totalPrice values, and
returns the groups sorted ascending by year and then by the finer key
components. -/
theorem C6_revenue_rollups (sales : List SaleDoc) (userId : Nat) :
    RollupOk weekKey lexLe2 sales userId (readAllWeeks sales userId) ∧
    RollupOk monthKey lexLe2 sales userId (readAllMonths sales userId) ∧
    RollupOk yearKey (fun a b => a ≤ b) sales userId (readAllYearly sales userId) ∧
    RollupOk dayKey lexLe3 sales userId (readAllDaily sales userId) :=
  ⟨rollup_ok weekKey lexLe2 lexLe2_trans lexLe2_total sales userId,
   rollup_ok monthKey lexLe2 lexLe2_trans lexLe2_total sales userId,
   rollup_ok yearKey (fun a b => a ≤ b)
     (fun a b c hab hbc => by
       simp only [decide_eq_true_eq] at hab hbc ⊢; omega)
     (fun a b => by
       simp only [Bool.or_eq_true, decide_eq_true_eq]; omega)
     sales userId,
   rollup_ok dayKey lexLe3 lexLe3_trans lexLe3_total sales userId⟩

end Inventory
